import Mathlib

/-!
Shallow embedding of hw1/demo-app-1/backend/main.go: a Go HTTP CRUD service
over two resources (users, orders) with Prometheus instrumentation.

Modelling conventions:
* timestamps are abstract integers (the code only receives and re-emits them);
* float64 amounts are carried opaquely as their 64-bit pattern (the code never
  computes with them, it only copies them between the wire and the store);
* the database is an external collaborator: each handler takes the store's
  response to the statement it issues as an explicit argument, and a separate
  set of functions gives the healthy store's response computed from a table
  modelled as a list of rows;
* JSON request bodies are modelled as records of optional fields (Go's
  json.Decode leaves absent fields at their zero value), wrapped in Except to
  model malformed bodies;
* each handler returns a Trace: the HTTP response, the list of SQL statements
  it issued, and the number of db-latency histogram observations it made.
-/

namespace DemoApp

/-- Opaque 64-bit float value: the program only copies amounts, never computes
with them, so we carry the bit pattern. -/
structure GoFloat where
  bits : Nat
deriving DecidableEq, Repr

/-- Row type of the users table / wire type of the user resource
(main.go type User). -/
structure User where
  id : Int
  name : String
  email : String
  createdAt : Int
deriving DecidableEq, Repr

/-- Row type of the orders table / wire type of the order resource
(main.go type Order). -/
structure Order where
  id : Int
  userId : Int
  amount : GoFloat
  description : String
  createdAt : Int
deriving DecidableEq, Repr

/-- Outcome of Go strconv parsing: success, syntax error, or range error. -/
inductive GoParseErr where
  | ok
  | syntaxErr
  | rangeErr
deriving DecidableEq, Repr

/-- Value of a list of decimal digit characters. -/
def decDigitsVal (l : List Char) : Nat :=
  l.foldl (fun a c => a * 10 + (c.toNat - 48)) 0

/-- Go strconv.Atoi = ParseInt(s, 10, 0) on a 64-bit platform: optional sign,
then decimal digits; any other character is a syntax error returning value 0;
a value outside [-2^63, 2^63-1] is a range error returning the clamped
extreme value. Returns (value, error). -/
def goParseInt (s : String) : Int × GoParseErr :=
  match s.data with
  | [] => (0, .syntaxErr)
  | c :: rest =>
    let p := if c = '-' then (true, rest)
             else if c = '+' then (false, rest)
             else (false, c :: rest)
    if p.2.isEmpty || p.2.any (fun d => !d.isDigit) then (0, .syntaxErr)
    else
      let n := decDigitsVal p.2
      if p.1 then
        if n > 2 ^ 63 then (-(2 ^ 63 : Int), .rangeErr) else (-(n : Int), .ok)
      else
        if n ≥ 2 ^ 63 then ((2 ^ 63 : Int) - 1, .rangeErr) else ((n : Int), .ok)

/-- The integer the handlers use: `id, _ := strconv.Atoi(idStr)` — the error
is discarded, only the returned value is kept. -/
def goAtoi (s : String) : Int :=
  (goParseInt s).1

/-- JSON body for a user create/update request: every field of the Go struct
may be present or absent (json.Decode leaves absent fields at zero value). -/
structure UserPayload where
  id : Option Int := none
  name : Option String := none
  email : Option String := none
  createdAt : Option Int := none
deriving DecidableEq, Repr

/-- JSON body for an order create/update request. -/
structure OrderPayload where
  id : Option Int := none
  userId : Option Int := none
  amount : Option GoFloat := none
  description : Option String := none
  createdAt : Option Int := none
deriving DecidableEq, Repr

/-- Effect of `json.NewDecoder(r.Body).Decode(&u)` on a zero-valued User:
present fields are written, absent fields keep Go zero values. -/
def decodeUser (p : UserPayload) : User :=
  { id := p.id.getD 0
    name := p.name.getD ""
    email := p.email.getD ""
    createdAt := p.createdAt.getD 0 }

/-- Effect of decoding into a zero-valued Order. -/
def decodeOrder (p : OrderPayload) : Order :=
  { id := p.id.getD 0
    userId := p.userId.getD 0
    amount := p.amount.getD ⟨0⟩
    description := p.description.getD ""
    createdAt := p.createdAt.getD 0 }

/-- Result of a single-row query (QueryRow ... Scan): a row, sql.ErrNoRows,
or any other database error carrying its message. -/
inductive DbResult (α : Type) where
  | ok (a : α)
  | noRows
  | fail (msg : String)
deriving DecidableEq, Repr

/-- The error text Go's database/sql reports for each failing result
(sql.ErrNoRows prints as this fixed string). -/
def DbResult.errText {α : Type} : DbResult α → String
  | .ok _ => ""
  | .noRows => "sql: no rows in result set"
  | .fail m => m

/-- HTTP response bodies the handlers can produce. JSON encoding of an entity
is injective on the fields, so we keep the structured value. -/
inductive Body where
  | empty
  | text (s : String)
  | userJson (u : User)
  | usersJson (l : List User)
  | orderJson (o : Order)
  | ordersJson (l : List Order)
deriving DecidableEq, Repr

/-- An HTTP response as the handler produced it: the status it explicitly set
through WriteHeader (none when it only wrote a body), and the body. -/
structure Resp where
  explicit : Option Nat
  body : Body
deriving DecidableEq, Repr

/-- The status that goes on the wire: net/http sends 200 implicitly when the
handler writes a body without calling WriteHeader. -/
def Resp.status (r : Resp) : Nat :=
  r.explicit.getD 200

/-- Go's http.Error(w, msg, code): sets the status explicitly and writes the
message followed by a newline. -/
def httpError (msg : String) (code : Nat) : Resp :=
  { explicit := some code, body := .text (msg ++ "\n") }

/-- The parameterized SQL statements main.go issues, with their arguments. -/
inductive DbStmt where
  | insertUser (name email : String)
  | selectUsers
  | selectUserById (id : Int)
  | updateUsers (name email : String) (id : Int)
  | deleteUsers (id : Int)
  | insertOrder (userId : Int) (amount : GoFloat) (description : String)
  | selectOrders
  | selectOrderById (id : Int)
  | updateOrders (userId : Int) (amount : GoFloat) (description : String) (id : Int)
  | deleteOrders (id : Int)
deriving DecidableEq, Repr

/-- Observable run of one handler: response, issued statements in order, and
number of dbQueryDuration.Observe calls. -/
structure Trace where
  resp : Resp
  stmts : List DbStmt
  dbObserves : Nat
deriving DecidableEq, Repr

/-- Handler POST /api/users (main.go createUser). `body` is the decode result
of the request body; `ins` is the store's response to the INSERT ... RETURNING
statement (the assigned id and created_at on success). -/
def createUser (body : Except String UserPayload) (ins : DbResult (Int × Int)) : Trace :=
  match body with
  | .error _ => { resp := httpError "bad request" 400, stmts := [], dbObserves := 0 }
  | .ok p =>
    let u := decodeUser p
    let stmt := DbStmt.insertUser u.name u.email
    match ins with
    | .ok (i, t) =>
      { resp := { explicit := none, body := .userJson { u with id := i, createdAt := t } }
        stmts := [stmt], dbObserves := 1 }
    | r => { resp := httpError r.errText 500, stmts := [stmt], dbObserves := 1 }

/-- Scan loop of listUsers: rows are consumed one by one; the first scan error
aborts with a 500, otherwise the accumulated slice is encoded. -/
def scanUsers : List (Except String User) → List User → Trace
  | [], acc =>
    { resp := { explicit := none, body := .usersJson acc }, stmts := [.selectUsers], dbObserves := 1 }
  | .error e :: _, _ =>
    { resp := httpError e 500, stmts := [.selectUsers], dbObserves := 1 }
  | .ok u :: rest, acc => scanUsers rest (acc ++ [u])

/-- Handler GET /api/users (main.go listUsers). `q` is the store's response to
the SELECT: a list of per-row scan results, or a query error. -/
def listUsers (q : DbResult (List (Except String User))) : Trace :=
  match q with
  | .ok rows => scanUsers rows []
  | r => { resp := httpError r.errText 500, stmts := [.selectUsers], dbObserves := 1 }

/-- Handler GET /api/users/\x7bid\x7d (main.go getUser). `q` is the store's
response to the point lookup for goAtoi idStr. -/
def getUser (idStr : String) (q : DbResult User) : Trace :=
  let i := goAtoi idStr
  match q with
  | .ok u =>
    { resp := { explicit := none, body := .userJson u }, stmts := [.selectUserById i], dbObserves := 1 }
  | .noRows =>
    { resp := httpError "not found" 404, stmts := [.selectUserById i], dbObserves := 1 }
  | .fail e =>
    { resp := httpError e 500, stmts := [.selectUserById i], dbObserves := 1 }

/-- Handler PUT /api/users/\x7bid\x7d (main.go updateUser). `ex` is the
store's response to the UPDATE (db.Exec: the affected row count is discarded
by the code, so only success or an error message matters). -/
def updateUser (idStr : String) (body : Except String UserPayload)
    (ex : Except String Unit) : Trace :=
  let i := goAtoi idStr
  match body with
  | .error _ => { resp := httpError "bad request" 400, stmts := [], dbObserves := 0 }
  | .ok p =>
    let u := decodeUser p
    let stmt := DbStmt.updateUsers u.name u.email i
    match ex with
    | .ok _ => { resp := { explicit := some 204, body := .empty }, stmts := [stmt], dbObserves := 1 }
    | .error e => { resp := httpError e 500, stmts := [stmt], dbObserves := 1 }

/-- Handler DELETE /api/users/\x7bid\x7d (main.go deleteUser). -/
def deleteUser (idStr : String) (ex : Except String Unit) : Trace :=
  let i := goAtoi idStr
  let stmt := DbStmt.deleteUsers i
  match ex with
  | .ok _ => { resp := { explicit := some 204, body := .empty }, stmts := [stmt], dbObserves := 1 }
  | .error e => { resp := httpError e 500, stmts := [stmt], dbObserves := 1 }

/-- Handler POST /api/orders (main.go createOrder). -/
def createOrder (body : Except String OrderPayload) (ins : DbResult (Int × Int)) : Trace :=
  match body with
  | .error _ => { resp := httpError "bad request" 400, stmts := [], dbObserves := 0 }
  | .ok p =>
    let o := decodeOrder p
    let stmt := DbStmt.insertOrder o.userId o.amount o.description
    match ins with
    | .ok (i, t) =>
      { resp := { explicit := none, body := .orderJson { o with id := i, createdAt := t } }
        stmts := [stmt], dbObserves := 1 }
    | r => { resp := httpError r.errText 500, stmts := [stmt], dbObserves := 1 }

/-- Scan loop of listOrders. -/
def scanOrders : List (Except String Order) → List Order → Trace
  | [], acc =>
    { resp := { explicit := none, body := .ordersJson acc }, stmts := [.selectOrders], dbObserves := 1 }
  | .error e :: _, _ =>
    { resp := httpError e 500, stmts := [.selectOrders], dbObserves := 1 }
  | .ok o :: rest, acc => scanOrders rest (acc ++ [o])

/-- Handler GET /api/orders (main.go listOrders). -/
def listOrders (q : DbResult (List (Except String Order))) : Trace :=
  match q with
  | .ok rows => scanOrders rows []
  | r => { resp := httpError r.errText 500, stmts := [.selectOrders], dbObserves := 1 }

/-- Handler GET /api/orders/\x7bid\x7d (main.go getOrder). -/
def getOrder (idStr : String) (q : DbResult Order) : Trace :=
  let i := goAtoi idStr
  match q with
  | .ok o =>
    { resp := { explicit := none, body := .orderJson o }, stmts := [.selectOrderById i], dbObserves := 1 }
  | .noRows =>
    { resp := httpError "not found" 404, stmts := [.selectOrderById i], dbObserves := 1 }
  | .fail e =>
    { resp := httpError e 500, stmts := [.selectOrderById i], dbObserves := 1 }

/-- Handler PUT /api/orders/\x7bid\x7d (main.go updateOrder). -/
def updateOrder (idStr : String) (body : Except String OrderPayload)
    (ex : Except String Unit) : Trace :=
  let i := goAtoi idStr
  match body with
  | .error _ => { resp := httpError "bad request" 400, stmts := [], dbObserves := 0 }
  | .ok p =>
    let o := decodeOrder p
    let stmt := DbStmt.updateOrders o.userId o.amount o.description i
    match ex with
    | .ok _ => { resp := { explicit := some 204, body := .empty }, stmts := [stmt], dbObserves := 1 }
    | .error e => { resp := httpError e 500, stmts := [stmt], dbObserves := 1 }

/-- Handler DELETE /api/orders/\x7bid\x7d (main.go deleteOrder). -/
def deleteOrder (idStr : String) (ex : Except String Unit) : Trace :=
  let i := goAtoi idStr
  let stmt := DbStmt.deleteOrders i
  match ex with
  | .ok _ => { resp := { explicit := some 204, body := .empty }, stmts := [stmt], dbObserves := 1 }
  | .error e => { resp := httpError e 500, stmts := [stmt], dbObserves := 1 }

/-- Insert an element into a list kept sorted by strictly descending-or-equal
key order (largest key first). -/
def insertDescBy {α : Type} (key : α → Int) (a : α) : List α → List α
  | [] => [a]
  | b :: rest => if key b ≤ key a then a :: b :: rest else b :: insertDescBy key a rest

/-- Sort a list so keys are in descending order (insertion sort). -/
def sortDescBy {α : Type} (key : α → Int) : List α → List α
  | [] => []
  | a :: rest => insertDescBy key a (sortDescBy key rest)

/-- Healthy store's row set for SELECT ... FROM users ORDER BY id DESC
LIMIT 100, with the table modelled as a list of rows. -/
def runListUsers (tbl : List User) : List User :=
  (sortDescBy (fun u => u.id) tbl).take 100

/-- Healthy store's row set for SELECT ... FROM orders ORDER BY id DESC
LIMIT 100. -/
def runListOrders (tbl : List Order) : List Order :=
  (sortDescBy (fun o => o.id) tbl).take 100

/-- Healthy store's response to SELECT ... FROM users WHERE id=$1:
sql.ErrNoRows when no row matches. -/
def selectUserById (tbl : List User) (i : Int) : DbResult User :=
  match tbl.find? (fun u => u.id == i) with
  | some u => .ok u
  | none => .noRows

/-- Healthy store's response to SELECT ... FROM orders WHERE id=$1. -/
def selectOrderById (tbl : List Order) (i : Int) : DbResult Order :=
  match tbl.find? (fun o => o.id == i) with
  | some o => .ok o
  | none => .noRows

/-- Effect of UPDATE users SET name=$1, email=$2 WHERE id=$3 on the table:
every matching row has both mutable columns rewritten. -/
def applyUpdateUsers (tbl : List User) (name email : String) (i : Int) : List User :=
  tbl.map fun u => if u.id = i then { u with name := name, email := email } else u

/-- Effect of UPDATE orders SET user_id=$1, amount=$2, description=$3
WHERE id=$4 on the table. -/
def applyUpdateOrders (tbl : List Order) (userId : Int) (amount : GoFloat)
    (description : String) (i : Int) : List Order :=
  tbl.map fun o =>
    if o.id = i then { o with userId := userId, amount := amount, description := description } else o

/-- Effect of DELETE FROM users WHERE id=$1 on the table. -/
def applyDeleteUsers (tbl : List User) (i : Int) : List User :=
  tbl.filter fun u => u.id != i

/-- Effect of DELETE FROM orders WHERE id=$1 on the table. -/
def applyDeleteOrders (tbl : List Order) (i : Int) : List Order :=
  tbl.filter fun o => o.id != i

/-- An inbound HTTP request as the middleware sees it: the method and the raw
URL path (r.Method and r.URL.Path). -/
structure Request where
  method : String
  urlPath : String
deriving DecidableEq, Repr

/-- Prometheus events the middleware emits: one latency observation and one
counter increment, each labelled (method, path, status). -/
inductive MetricEvent where
  | observeReq (method path status : String)
  | incReq (method path status : String)
deriving DecidableEq, Repr

/-- Whether an event is a request-latency observation. -/
def MetricEvent.isObserve : MetricEvent → Bool
  | .observeReq _ _ _ => true
  | .incReq _ _ _ => false

/-- Whether an event is a request-counter increment. -/
def MetricEvent.isInc : MetricEvent → Bool
  | .observeReq _ _ _ => false
  | .incReq _ _ _ => true

/-- Final status held by the statusRecorder after the handler ran: it is
initialized to `initial` (200 in main.go) and overwritten only by an explicit
WriteHeader call. -/
def statusRecorderFinal (initial : Nat) (out : Resp) : Nat :=
  out.explicit.getD initial

/-- main.go instrumentHandler: wrap the handler in a statusRecorder
initialized to 200, run it, then observe the duration and increment the
counter, both labelled (r.Method, r.URL.Path, recorded status). -/
def instrumentHandler (h : Request → Resp) (req : Request) : Resp × List MetricEvent :=
  let out := h req
  let st := toString (statusRecorderFinal 200 out)
  (out, [.observeReq req.method req.urlPath st, .incReq req.method req.urlPath st])

/-- Label triple of http_requests_total / http_request_duration_seconds. -/
abbrev Label := String × String × String

/-- Counter-vector state: per-label accumulated counts. -/
abbrev CounterState := List (Label × Nat)

/-- Increment the counter for one label (creating the child at 1 if new). -/
def bump : CounterState → Label → CounterState
  | [], l => [(l, 1)]
  | (l0, n) :: rest, l => if l0 = l then (l0, n + 1) :: rest else (l0, n) :: bump rest l

/-- Sum of the counter over every label (all status buckets together). -/
def totalCount : CounterState → Nat
  | [] => 0
  | (_, n) :: rest => n + totalCount rest

/-- Apply one metric event to the request-counter state (observations touch
the histogram, not the counter). -/
def applyEvent (st : CounterState) : MetricEvent → CounterState
  | .observeReq _ _ _ => st
  | .incReq m p s => bump st (m, p, s)

/-- Serve a list of requests through the instrumented handler starting from a
fresh counter, folding every emitted event into the counter state. -/
def processAll (h : Request → Resp) (reqs : List Request) : CounterState :=
  reqs.foldl (fun st r => ((instrumentHandler h r).2).foldl applyEvent st) []

/-- Split a character list at every slash (the effect of splitting a path on
the separator "/"). -/
def splitSlashAux : List Char → List Char → List String
  | [], acc => [String.mk acc]
  | c :: rest, acc =>
    if c = '/' then String.mk acc :: splitSlashAux rest []
    else splitSlashAux rest (acc ++ [c])

/-- Segments of a URL path, splitting on "/". -/
def pathSegments (s : String) : List String :=
  splitSlashAux s.data []

/-- The mux route template a raw path matches, from the routes registered in
main.go (a \x7bid\x7d variable matches one nonempty path segment). -/
def routeTemplate (path : String) : Option String :=
  match pathSegments path with
  | ["", "api", "users"] => some "/api/users"
  | ["", "api", "users", seg] => if seg = "" then none else some "/api/users/\x7bid\x7d"
  | ["", "api", "orders"] => some "/api/orders"
  | ["", "api", "orders", seg] => if seg = "" then none else some "/api/orders/\x7bid\x7d"
  | ["", "metrics"] => some "/metrics"
  | _ => none

/-- Result of the startup readiness loop: how many db.Ping attempts were made,
how many one-second sleeps were taken, and whether the process was terminated
(the loop body contains no exit path, so fatal is false on every branch). -/
structure ProbeResult where
  attempts : Nat
  sleeps : Nat
  fatal : Bool
deriving DecidableEq, Repr

/-- The loop `for i := 0; i < 10; i++ { if ping() == nil { break }; sleep }`
with `fuel` iterations remaining and `i` the current index; `ping n` tells
whether the n-th attempt succeeds. -/
def probeAux (ping : Nat → Bool) (i : Nat) : Nat → ProbeResult
  | 0 => { attempts := 0, sleeps := 0, fatal := false }
  | fuel + 1 =>
    if ping i then { attempts := 1, sleeps := 0, fatal := false }
    else
      let r := probeAux ping (i + 1) fuel
      { attempts := r.attempts + 1, sleeps := r.sleeps + 1, fatal := false }

/-- The readiness probe in main: at most 10 ping attempts starting at index 0,
sleeping after each failure, then control falls through to serving. -/
def readinessProbe (ping : Nat → Bool) : ProbeResult :=
  probeAux ping 0 10

/-! Helper lemmas. -/

/-- The scan loop always reflects exactly the one SELECT it consumed and the
one latency observation taken for it, whatever the rows contain. -/
theorem scanUsers_shape (rows : List (Except String User)) (acc : List User) :
    (scanUsers rows acc).stmts = [.selectUsers] ∧ (scanUsers rows acc).dbObserves = 1 := by
  induction rows generalizing acc with
  | nil => exact ⟨rfl, rfl⟩
  | cons r rest ih =>
    cases r with
    | error e => exact ⟨rfl, rfl⟩
    | ok u => exact ih (acc ++ [u])

/-- Order-side analogue of scanUsers_shape. -/
theorem scanOrders_shape (rows : List (Except String Order)) (acc : List Order) :
    (scanOrders rows acc).stmts = [.selectOrders] ∧ (scanOrders rows acc).dbObserves = 1 := by
  induction rows generalizing acc with
  | nil => exact ⟨rfl, rfl⟩
  | cons r rest ih =>
    cases r with
    | error e => exact ⟨rfl, rfl⟩
    | ok u => exact ih (acc ++ [u])

/-- Scanning rows that all scan cleanly returns them all, in order, with a
200 response. -/
theorem scanUsers_ok (rows : List User) (acc : List User) :
    scanUsers (rows.map Except.ok) acc =
      { resp := { explicit := none, body := .usersJson (acc ++ rows) }
        stmts := [.selectUsers], dbObserves := 1 } := by
  induction rows generalizing acc with
  | nil => simp [scanUsers]
  | cons u rest ih =>
    simp only [List.map_cons, scanUsers, ih]
    simp

/-- Order-side analogue of scanUsers_ok. -/
theorem scanOrders_ok (rows : List Order) (acc : List Order) :
    scanOrders (rows.map Except.ok) acc =
      { resp := { explicit := none, body := .ordersJson (acc ++ rows) }
        stmts := [.selectOrders], dbObserves := 1 } := by
  induction rows generalizing acc with
  | nil => simp [scanOrders]
  | cons o rest ih =>
    simp only [List.map_cons, scanOrders, ih]
    simp

/-! Claim theorems. -/

/-- C3: for every create request whose body decodes and whose insert succeeds,
the returned entity carries the store-assigned identifier and creation
timestamp — whatever id/created_at the input body carried, the response holds
the store's values — and exactly the submitted mutable field values
(name/email for users, user_id/amount/description for orders), with status
200. -/
theorem C3_create_roundtrip (p : UserPayload) (i t : Int) (q : OrderPayload) (j s : Int) :
    createUser (.ok p) (.ok (i, t)) =
      { resp := { explicit := none
                  body := .userJson { id := i, name := p.name.getD "",
                                      email := p.email.getD "", createdAt := t } }
        stmts := [.insertUser (p.name.getD "") (p.email.getD "")]
        dbObserves := 1 } ∧
    (createUser (.ok p) (.ok (i, t))).resp.status = 200 ∧
    createOrder (.ok q) (.ok (j, s)) =
      { resp := { explicit := none
                  body := .orderJson { id := j, userId := q.userId.getD 0,
                                       amount := q.amount.getD ⟨0⟩,
                                       description := q.description.getD "", createdAt := s } }
        stmts := [.insertOrder (q.userId.getD 0) (q.amount.getD ⟨0⟩) (q.description.getD "")]
        dbObserves := 1 } ∧
    (createOrder (.ok q) (.ok (j, s))).resp.status = 200 :=
  ⟨rfl, rfl, rfl, rfl⟩

/-- C8: a create/update body that fails to decode is rejected with 400 before
any store access (no statement issued, no db-latency observation), and every
store failure other than no-rows-on-point-lookup is answered 500 with the
store's error text passed verbatim (http.Error appends one newline). -/
theorem C8_decode_and_store_errors (e m : String) (p : UserPayload) (q : OrderPayload)
    (insU insO : DbResult (Int × Int)) (exU exO : Except String Unit) (idStr : String)
    (restU : List (Except String User)) :
    createUser (.error e) insU = { resp := httpError "bad request" 400, stmts := [], dbObserves := 0 } ∧
    updateUser idStr (.error e) exU = { resp := httpError "bad request" 400, stmts := [], dbObserves := 0 } ∧
    createOrder (.error e) insO = { resp := httpError "bad request" 400, stmts := [], dbObserves := 0 } ∧
    updateOrder idStr (.error e) exO = { resp := httpError "bad request" 400, stmts := [], dbObserves := 0 } ∧
    (createUser (.error e) insU).stmts = [] ∧
    (createUser (.error e) insU).dbObserves = 0 ∧
    (createUser (.ok p) (.fail m)).resp = { explicit := some 500, body := .text (m ++ "\n") } ∧
    (createOrder (.ok q) (.fail m)).resp = { explicit := some 500, body := .text (m ++ "\n") } ∧
    (getUser idStr (.fail m)).resp = { explicit := some 500, body := .text (m ++ "\n") } ∧
    (getOrder idStr (.fail m)).resp = { explicit := some 500, body := .text (m ++ "\n") } ∧
    (updateUser idStr (.ok p) (.error m)).resp = { explicit := some 500, body := .text (m ++ "\n") } ∧
    (updateOrder idStr (.ok q) (.error m)).resp = { explicit := some 500, body := .text (m ++ "\n") } ∧
    (deleteUser idStr (.error m)).resp = { explicit := some 500, body := .text (m ++ "\n") } ∧
    (deleteOrder idStr (.error m)).resp = { explicit := some 500, body := .text (m ++ "\n") } ∧
    (listUsers (.fail m)).resp = { explicit := some 500, body := .text (m ++ "\n") } ∧
    (listOrders (.fail m)).resp = { explicit := some 500, body := .text (m ++ "\n") } ∧
    (listUsers (.ok (.error m :: restU))).resp = { explicit := some 500, body := .text (m ++ "\n") } :=
  ⟨rfl, rfl, rfl, rfl, rfl, rfl, rfl, rfl, rfl, rfl, rfl, rfl, rfl, rfl, rfl, rfl, rfl⟩

/-- C9: every handler records exactly one db-latency observation per store
statement it issues, for every input, so each insert/select/update/delete on
either resource is observed exactly once whether it succeeds or fails. -/
theorem C9_db_observation_per_statement (bu : Except String UserPayload)
    (bo : Except String OrderPayload) (insU insO : DbResult (Int × Int))
    (qlU : DbResult (List (Except String User))) (qlO : DbResult (List (Except String Order)))
    (qU : DbResult User) (qO : DbResult Order) (exU exO edU edO : Except String Unit)
    (i1 i2 i3 i4 i5 i6 : String) :
    (createUser bu insU).dbObserves = (createUser bu insU).stmts.length ∧
    (listUsers qlU).dbObserves = (listUsers qlU).stmts.length ∧
    (getUser i1 qU).dbObserves = (getUser i1 qU).stmts.length ∧
    (updateUser i2 bu exU).dbObserves = (updateUser i2 bu exU).stmts.length ∧
    (deleteUser i3 edU).dbObserves = (deleteUser i3 edU).stmts.length ∧
    (createOrder bo insO).dbObserves = (createOrder bo insO).stmts.length ∧
    (listOrders qlO).dbObserves = (listOrders qlO).stmts.length ∧
    (getOrder i4 qO).dbObserves = (getOrder i4 qO).stmts.length ∧
    (updateOrder i5 bo exO).dbObserves = (updateOrder i5 bo exO).stmts.length ∧
    (deleteOrder i6 edO).dbObserves = (deleteOrder i6 edO).stmts.length := by
  refine ⟨?_, ?_, ?_, ?_, ?_, ?_, ?_, ?_, ?_, ?_⟩
  · cases bu with
    | error e => rfl
    | ok p => cases insU with
      | ok a => rfl
      | noRows => rfl
      | fail m => rfl
  · cases qlU with
    | ok rows =>
        have h := scanUsers_shape rows []
        simp [listUsers, h.1, h.2]
    | noRows => rfl
    | fail m => rfl
  · cases qU with
    | ok u => rfl
    | noRows => rfl
    | fail m => rfl
  · cases bu with
    | error e => rfl
    | ok p => cases exU with
      | ok a => rfl
      | error m => rfl
  · cases edU with
    | ok a => rfl
    | error m => rfl
  · cases bo with
    | error e => rfl
    | ok p => cases insO with
      | ok a => rfl
      | noRows => rfl
      | fail m => rfl
  · cases qlO with
    | ok rows =>
        have h := scanOrders_shape rows []
        simp [listOrders, h.1, h.2]
    | noRows => rfl
    | fail m => rfl
  · cases qO with
    | ok o => rfl
    | noRows => rfl
    | fail m => rfl
  · cases bo with
    | error e => rfl
    | ok p => cases exO with
      | ok a => rfl
      | error m => rfl
  · cases edO with
    | ok a => rfl
    | error m => rfl

/-- C10: handlers that write a body without calling WriteHeader (successful
create, list, get, on both resources) end with wire status 200 and metric
label status 200 — the statusRecorder keeps its initial 200 — so a
successful create returns 200, never 201. -/
theorem C10_implicit_status_200 (p : UserPayload) (i t : Int) (lst : List User) (u : User)
    (idStr : String) (req : Request) (q : OrderPayload) (j s : Int) (olst : List Order)
    (o : Order) :
    (createUser (.ok p) (.ok (i, t))).resp.explicit = none ∧
    (createUser (.ok p) (.ok (i, t))).resp.status = 200 ∧
    statusRecorderFinal 200 (createUser (.ok p) (.ok (i, t))).resp = 200 ∧
    (listUsers (.ok (lst.map .ok))).resp.explicit = none ∧
    (listUsers (.ok (lst.map .ok))).resp.status = 200 ∧
    (getUser idStr (.ok u)).resp.explicit = none ∧
    (getUser idStr (.ok u)).resp.status = 200 ∧
    (createOrder (.ok q) (.ok (j, s))).resp.explicit = none ∧
    (createOrder (.ok q) (.ok (j, s))).resp.status = 200 ∧
    (listOrders (.ok (olst.map .ok))).resp.explicit = none ∧
    (listOrders (.ok (olst.map .ok))).resp.status = 200 ∧
    (getOrder idStr (.ok o)).resp.explicit = none ∧
    (getOrder idStr (.ok o)).resp.status = 200 ∧
    (instrumentHandler (fun _ => (createUser (.ok p) (.ok (i, t))).resp) req).2 =
      [.observeReq req.method req.urlPath "200", .incReq req.method req.urlPath "200"] ∧
    (createUser (.ok p) (.ok (i, t))).resp.status ≠ 201 := by
  refine ⟨rfl, rfl, rfl, ?_, ?_, rfl, rfl, rfl, rfl, ?_, ?_, rfl, rfl, ?_, ?_⟩
  · simp [listUsers, scanUsers_ok]
  · simp [listUsers, scanUsers_ok, Resp.status]
  · simp [listOrders, scanOrders_ok]
  · simp [listOrders, scanOrders_ok, Resp.status]
  · simp [instrumentHandler, statusRecorderFinal, createUser]
    rfl
  · show (200 : Nat) ≠ 201
    decide

/-- No branch of the probe loop terminates the process. -/
theorem probeAux_fatal (ping : Nat → Bool) (i fuel : Nat) :
    (probeAux ping i fuel).fatal = false := by
  induction fuel generalizing i with
  | zero => rfl
  | succ n ih =>
    unfold probeAux
    split
    · rfl
    · simp [ih]

/-- The probe makes at most as many attempts as it has fuel. -/
theorem probeAux_attempts_le (ping : Nat → Bool) (i fuel : Nat) :
    (probeAux ping i fuel).attempts ≤ fuel := by
  induction fuel generalizing i with
  | zero => exact Nat.le_refl 0
  | succ n ih =>
    unfold probeAux
    split
    · exact Nat.succ_le_succ (Nat.zero_le n)
    · exact Nat.succ_le_succ (ih (i + 1))

/-- When the first success is the j-th attempt (0-based) within the fuel
bound, the loop stops right there: j failures, each followed by a sleep, then
the successful attempt. -/
theorem probeAux_first_success (ping : Nat → Bool) (i fuel j : Nat) (hj : j < fuel)
    (hs : ping (i + j) = true) (hf : ∀ k, k < j → ping (i + k) = false) :
    probeAux ping i fuel = { attempts := j + 1, sleeps := j, fatal := false } := by
  induction fuel generalizing i j with
  | zero => exact absurd hj (Nat.not_lt_zero j)
  | succ n ih =>
    unfold probeAux
    cases j with
    | zero =>
      have h0 : ping i = true := by simpa using hs
      simp [h0]
    | succ m =>
      have h0 : ping i = false := by simpa using hf 0 (Nat.succ_pos m)
      rw [if_neg (by simp [h0])]
      have harg : i + 1 + m = i + (m + 1) := by omega
      have hrec := ih (i + 1) m (by omega) (by rw [harg]; exact hs)
        (fun k hk => by
          have : i + 1 + k = i + (k + 1) := by omega
          rw [this]
          exact hf (k + 1) (by omega))
      simp [hrec]

/-- When every attempt within the fuel bound fails, the loop runs them all:
fuel attempts and fuel sleeps, and control still falls through. -/
theorem probeAux_all_fail (ping : Nat → Bool) (i fuel : Nat)
    (h : ∀ k, k < fuel → ping (i + k) = false) :
    probeAux ping i fuel = { attempts := fuel, sleeps := fuel, fatal := false } := by
  induction fuel generalizing i with
  | zero => rfl
  | succ n ih =>
    have h0 : ping i = false := by simpa using h 0 (Nat.succ_pos n)
    unfold probeAux
    rw [if_neg (by simp [h0])]
    have hrec := ih (i + 1)
      (fun k hk => by
        have : i + 1 + k = i + (k + 1) := by omega
        rw [this]
        exact h (k + 1) (by omega))
    simp [hrec]

/-- C2: the readiness probe pings the store at most 10 times, sleeps one time
unit after each failure, stops on the first success, and never terminates the
process — even when all 10 attempts fail it returns and control proceeds to
serve requests. -/
theorem C2_readiness_probe (ping : Nat → Bool) :
    (readinessProbe ping).attempts ≤ 10 ∧
    (readinessProbe ping).fatal = false ∧
    (∀ j, j < 10 → ping j = true → (∀ k, k < j → ping k = false) →
      readinessProbe ping = { attempts := j + 1, sleeps := j, fatal := false }) ∧
    ((∀ k, k < 10 → ping k = false) →
      readinessProbe ping = { attempts := 10, sleeps := 10, fatal := false }) := by
  refine ⟨probeAux_attempts_le ping 0 10, probeAux_fatal ping 0 10, ?_, ?_⟩
  · intro j hj hs hf
    exact probeAux_first_success ping 0 10 j hj (by simpa using hs)
      (fun k hk => by simpa using hf k hk)
  · intro h
    exact probeAux_all_fail ping 0 10 (fun k hk => by simpa using h k hk)

/-- C2 witness: with a store that comes up at the fourth attempt the probe
stops after 4 attempts and 3 sleeps, and with a store that never answers it
makes exactly 10 attempts and still proceeds. -/
theorem C2_readiness_probe_witness :
    (3 : Nat) < 10 ∧ (fun k => decide (3 ≤ k)) 3 = true ∧
    readinessProbe (fun k => decide (3 ≤ k)) = { attempts := 4, sleeps := 3, fatal := false } ∧
    readinessProbe (fun _ => false) = { attempts := 10, sleeps := 10, fatal := false } :=
  ⟨by decide, by decide,
    (C2_readiness_probe (fun k => decide (3 ≤ k))).2.2.1 3 (by decide) (by decide)
      (fun k hk => by simp; omega),
    (C2_readiness_probe (fun _ => false)).2.2.2 (fun k _ => rfl)⟩

/-- Values goParseInt returns alongside each error: a syntax error always
comes with value 0, a range error always with one of the two clamped 64-bit
extremes. -/
theorem goParseInt_err_values (s : String) :
    ((goParseInt s).2 = .syntaxErr → (goParseInt s).1 = 0) ∧
    ((goParseInt s).2 = .rangeErr →
      (goParseInt s).1 = 2 ^ 63 - 1 ∨ (goParseInt s).1 = -(2 ^ 63)) := by
  unfold goParseInt
  cases s.data with
  | nil => exact ⟨fun _ => rfl, fun h => by simp at h⟩
  | cons c rest =>
    simp only []
    split_ifs with h1 h2 h3 h4 h5 <;>
      first
        | exact ⟨fun _ => rfl, fun h => by simp at h⟩
        | exact ⟨fun h => by simp at h, fun _ => Or.inr rfl⟩
        | exact ⟨fun h => by simp at h, fun _ => Or.inl rfl⟩
        | exact ⟨fun h => by simp at h, fun h => by simp at h⟩

/-- A healthy store answers a point lookup for an identifier no row carries
with sql.ErrNoRows. -/
theorem selectUserById_no_match (tbl : List User) (i : Int)
    (h : ∀ v, v ∈ tbl → v.id ≠ i) : selectUserById tbl i = .noRows := by
  unfold selectUserById
  rw [List.find?_eq_none.mpr (fun v hv => by simpa using h v hv)]

/-- Order-side analogue of selectUserById_no_match. -/
theorem selectOrderById_no_match (tbl : List Order) (i : Int)
    (h : ∀ v, v ∈ tbl → v.id ≠ i) : selectOrderById tbl i = .noRows := by
  unfold selectOrderById
  rw [List.find?_eq_none.mpr (fun v hv => by simpa using h v hv)]

/-- C5 (amended): the path identifier is parsed with strconv.Atoi and the
error is discarded — a syntactically invalid identifier is treated as zero,
while a syntactically valid but out-of-range one is clamped to the extreme
64-bit value (not zero); the request is never rejected: whatever the path
string, the store is queried for exactly the resulting identifier, the
handler answers 404 when zero rows match and 200 with the single entity
otherwise. -/
theorem C5_get_semantics (idStr : String) (tbl : List User) (otbl : List Order)
    (u : User) (o : Order) :
    ((goParseInt idStr).2 = .syntaxErr → goAtoi idStr = 0) ∧
    ((goParseInt idStr).2 = .rangeErr →
      goAtoi idStr = 2 ^ 63 - 1 ∨ goAtoi idStr = -(2 ^ 63)) ∧
    (∀ q : DbResult User, (getUser idStr q).stmts = [.selectUserById (goAtoi idStr)]) ∧
    (∀ q : DbResult Order, (getOrder idStr q).stmts = [.selectOrderById (goAtoi idStr)]) ∧
    ((∀ v, v ∈ tbl → v.id ≠ goAtoi idStr) →
      getUser idStr (selectUserById tbl (goAtoi idStr)) =
        { resp := httpError "not found" 404
          stmts := [.selectUserById (goAtoi idStr)], dbObserves := 1 }) ∧
    (selectUserById tbl (goAtoi idStr) = .ok u →
      getUser idStr (selectUserById tbl (goAtoi idStr)) =
        { resp := { explicit := none, body := .userJson u }
          stmts := [.selectUserById (goAtoi idStr)], dbObserves := 1 }) ∧
    ((∀ v, v ∈ otbl → v.id ≠ goAtoi idStr) →
      getOrder idStr (selectOrderById otbl (goAtoi idStr)) =
        { resp := httpError "not found" 404
          stmts := [.selectOrderById (goAtoi idStr)], dbObserves := 1 }) ∧
    (selectOrderById otbl (goAtoi idStr) = .ok o →
      getOrder idStr (selectOrderById otbl (goAtoi idStr)) =
        { resp := { explicit := none, body := .orderJson o }
          stmts := [.selectOrderById (goAtoi idStr)], dbObserves := 1 }) := by
  refine ⟨(goParseInt_err_values idStr).1, (goParseInt_err_values idStr).2, ?_, ?_, ?_, ?_, ?_, ?_⟩
  · intro q
    cases q with
    | ok v => rfl
    | noRows => rfl
    | fail m => rfl
  · intro q
    cases q with
    | ok v => rfl
    | noRows => rfl
    | fail m => rfl
  · intro h
    rw [selectUserById_no_match tbl _ h]
    rfl
  · intro h
    rw [h]
    rfl
  · intro h
    rw [selectOrderById_no_match otbl _ h]
    rfl
  · intro h
    rw [h]
    rfl

/-- C5 counterexample: the path identifier "9223372036854775808" (2^63) fails
to parse — strconv.Atoi reports a range error — yet the handler does not treat
it as zero: the discarded-error value is the clamped maximum 9223372036854775807,
so the store is queried for that identifier, not 0. -/
theorem C5_counterexample :
    (goParseInt "9223372036854775808").2 = .rangeErr ∧
    goAtoi "9223372036854775808" = 9223372036854775807 ∧
    (9223372036854775807 : Int) ≠ 0 ∧
    (getUser "9223372036854775808" .noRows).stmts = [.selectUserById 9223372036854775807] :=
  ⟨rfl, rfl, by decide, rfl⟩

/-- C5 witness: fetching the never-issued identifier 9999999 from a store
holding only user 1 answers 404 not-found, and the parse of a syntactically
invalid identifier yields zero. -/
theorem C5_get_semantics_witness :
    (∀ v, v ∈ [({ id := 1, name := "a", email := "b", createdAt := 0 } : User)] →
      v.id ≠ goAtoi "9999999") ∧
    goAtoi "9999999" = 9999999 ∧
    getUser "9999999"
        (selectUserById [({ id := 1, name := "a", email := "b", createdAt := 0 } : User)]
          (goAtoi "9999999")) =
      { resp := httpError "not found" 404
        stmts := [.selectUserById (goAtoi "9999999")], dbObserves := 1 } ∧
    (goParseInt "abc").2 = .syntaxErr ∧
    goAtoi "abc" = 0 :=
  ⟨by decide, rfl,
    (C5_get_semantics "9999999" [{ id := 1, name := "a", email := "b", createdAt := 0 }] []
        { id := 0, name := "", email := "", createdAt := 0 }
        { id := 0, userId := 0, amount := ⟨0⟩, description := "", createdAt := 0 }).2.2.2.2.1
      (by decide),
    rfl,
    (C5_get_semantics "abc" [] [] { id := 0, name := "", email := "", createdAt := 0 }
        { id := 0, userId := 0, amount := ⟨0⟩, description := "", createdAt := 0 }).1 rfl⟩

/-- An UPDATE whose identifier matches no row leaves the users table
unchanged (and Postgres reports success with zero rows affected). -/
theorem applyUpdateUsers_no_match (tbl : List User) (name email : String) (i : Int)
    (h : ∀ u, u ∈ tbl → u.id ≠ i) : applyUpdateUsers tbl name email i = tbl := by
  induction tbl with
  | nil => rfl
  | cons u rest ih =>
    simp only [applyUpdateUsers, List.map_cons]
    rw [if_neg (h u (List.mem_cons_self u rest))]
    exact congrArg (List.cons u) (ih (fun v hv => h v (List.mem_cons_of_mem u hv)))

/-- Order-side analogue of applyUpdateUsers_no_match. -/
theorem applyUpdateOrders_no_match (tbl : List Order) (userId : Int) (amount : GoFloat)
    (description : String) (i : Int) (h : ∀ o, o ∈ tbl → o.id ≠ i) :
    applyUpdateOrders tbl userId amount description i = tbl := by
  induction tbl with
  | nil => rfl
  | cons o rest ih =>
    simp only [applyUpdateOrders, List.map_cons]
    rw [if_neg (h o (List.mem_cons_self o rest))]
    exact congrArg (List.cons o) (ih (fun v hv => h v (List.mem_cons_of_mem o hv)))

/-- A DELETE whose identifier matches no row leaves the users table
unchanged. -/
theorem applyDeleteUsers_no_match (tbl : List User) (i : Int)
    (h : ∀ u, u ∈ tbl → u.id ≠ i) : applyDeleteUsers tbl i = tbl := by
  unfold applyDeleteUsers
  rw [List.filter_eq_self.mpr (fun u hu => by simpa using h u hu)]

/-- Order-side analogue of applyDeleteUsers_no_match. -/
theorem applyDeleteOrders_no_match (tbl : List Order) (i : Int)
    (h : ∀ o, o ∈ tbl → o.id ≠ i) : applyDeleteOrders tbl i = tbl := by
  unfold applyDeleteOrders
  rw [List.filter_eq_self.mpr (fun o ho => by simpa using h o ho)]

/-- C4: an update request with a decodable body issues exactly one UPDATE that
rewrites every mutable column from the decoded body — fields absent from the
payload are written as their Go zero values — and, when the store accepts the
statement, answers 204 no matter whether any row matched: with a nonexistent
identifier the table is unchanged and the status is still 204, not 404. -/
theorem C4_update_whole_record (idStr : String) (p : UserPayload) (q : OrderPayload)
    (tbl : List User) (otbl : List Order) :
    updateUser idStr (.ok p) (.ok ()) =
      { resp := { explicit := some 204, body := .empty }
        stmts := [.updateUsers (p.name.getD "") (p.email.getD "") (goAtoi idStr)]
        dbObserves := 1 } ∧
    applyUpdateUsers tbl (p.name.getD "") (p.email.getD "") (goAtoi idStr) =
      tbl.map (fun u => if u.id = goAtoi idStr
        then { u with name := p.name.getD "", email := p.email.getD "" } else u) ∧
    ((∀ u, u ∈ tbl → u.id ≠ goAtoi idStr) →
      applyUpdateUsers tbl (p.name.getD "") (p.email.getD "") (goAtoi idStr) = tbl) ∧
    updateOrder idStr (.ok q) (.ok ()) =
      { resp := { explicit := some 204, body := .empty }
        stmts := [.updateOrders (q.userId.getD 0) (q.amount.getD ⟨0⟩)
                    (q.description.getD "") (goAtoi idStr)]
        dbObserves := 1 } ∧
    applyUpdateOrders otbl (q.userId.getD 0) (q.amount.getD ⟨0⟩) (q.description.getD "")
        (goAtoi idStr) =
      otbl.map (fun o => if o.id = goAtoi idStr
        then { o with userId := q.userId.getD 0, amount := q.amount.getD ⟨0⟩,
                      description := q.description.getD "" } else o) ∧
    ((∀ o, o ∈ otbl → o.id ≠ goAtoi idStr) →
      applyUpdateOrders otbl (q.userId.getD 0) (q.amount.getD ⟨0⟩) (q.description.getD "")
        (goAtoi idStr) = otbl) :=
  ⟨rfl, rfl, applyUpdateUsers_no_match tbl _ _ _, rfl, rfl,
    applyUpdateOrders_no_match otbl _ _ _ _⟩

/-- C4 witness: PUT /api/orders/9999999 with a valid body against a store
whose orders table holds only id 1 answers 204 and changes nothing. -/
theorem C4_update_whole_record_witness :
    (∀ o, o ∈ [({ id := 1, userId := 1, amount := ⟨0⟩, description := "d", createdAt := 0 } : Order)] →
      o.id ≠ goAtoi "9999999") ∧
    updateOrder "9999999" (.ok { userId := some 2, amount := some ⟨5⟩, description := some "x" })
        (.ok ()) =
      { resp := { explicit := some 204, body := .empty }
        stmts := [.updateOrders 2 ⟨5⟩ "x" (goAtoi "9999999")]
        dbObserves := 1 } ∧
    applyUpdateOrders [({ id := 1, userId := 1, amount := ⟨0⟩, description := "d", createdAt := 0 } : Order)]
        2 ⟨5⟩ "x" (goAtoi "9999999") =
      [({ id := 1, userId := 1, amount := ⟨0⟩, description := "d", createdAt := 0 } : Order)] := by
  have h := C4_update_whole_record "9999999"
    { name := none, email := none }
    { userId := some 2, amount := some ⟨5⟩, description := some "x" }
    [] [({ id := 1, userId := 1, amount := ⟨0⟩, description := "d", createdAt := 0 } : Order)]
  exact ⟨by decide, h.2.2.2.1, h.2.2.2.2.2 (by decide)⟩

/-- C6: a delete request whose DELETE the store accepts answers 204 no-content
regardless of whether a row with that identifier existed — deleting a
nonexistent identifier changes nothing and still succeeds. -/
theorem C6_delete_idempotent (idStr : String) (tbl : List User) (otbl : List Order) :
    deleteUser idStr (.ok ()) =
      { resp := { explicit := some 204, body := .empty }
        stmts := [.deleteUsers (goAtoi idStr)], dbObserves := 1 } ∧
    deleteOrder idStr (.ok ()) =
      { resp := { explicit := some 204, body := .empty }
        stmts := [.deleteOrders (goAtoi idStr)], dbObserves := 1 } ∧
    ((∀ u, u ∈ tbl → u.id ≠ goAtoi idStr) → applyDeleteUsers tbl (goAtoi idStr) = tbl) ∧
    ((∀ o, o ∈ otbl → o.id ≠ goAtoi idStr) → applyDeleteOrders otbl (goAtoi idStr) = otbl) :=
  ⟨rfl, rfl, applyDeleteUsers_no_match tbl _, applyDeleteOrders_no_match otbl _⟩

/-- C6 witness: DELETE /api/users/9999999 against a store holding only user 1
answers 204 and removes nothing. -/
theorem C6_delete_idempotent_witness :
    (∀ u, u ∈ [({ id := 1, name := "a", email := "b", createdAt := 0 } : User)] →
      u.id ≠ goAtoi "9999999") ∧
    deleteUser "9999999" (.ok ()) =
      { resp := { explicit := some 204, body := .empty }
        stmts := [.deleteUsers (goAtoi "9999999")], dbObserves := 1 } ∧
    applyDeleteUsers [({ id := 1, name := "a", email := "b", createdAt := 0 } : User)]
        (goAtoi "9999999") =
      [({ id := 1, name := "a", email := "b", createdAt := 0 } : User)] := by
  have h := C6_delete_idempotent "9999999"
    [({ id := 1, name := "a", email := "b", createdAt := 0 } : User)] []
  exact ⟨by decide, h.1, h.2.2.1 (by decide)⟩

/-- Membership in an ordered insert: the inserted element or an original one. -/
theorem mem_insertDescBy {α : Type} (key : α → Int) (a x : α) (l : List α) :
    x ∈ insertDescBy key a l ↔ x = a ∨ x ∈ l := by
  induction l with
  | nil => simp [insertDescBy]
  | cons b rest ih =>
    simp only [insertDescBy]
    split
    · simp [List.mem_cons]
    · simp [List.mem_cons, ih]
      tauto

/-- Ordered insert preserves descending-key pairwise order. -/
theorem pairwise_insertDescBy {α : Type} (key : α → Int) (a : α) (l : List α)
    (h : l.Pairwise (fun x y => key y ≤ key x)) :
    (insertDescBy key a l).Pairwise (fun x y => key y ≤ key x) := by
  induction l with
  | nil => simp [insertDescBy]
  | cons b rest ih =>
    rcases List.pairwise_cons.mp h with ⟨hb, hrest⟩
    simp only [insertDescBy]
    split
    · rename_i hba
      refine List.pairwise_cons.mpr ⟨?_, h⟩
      intro x hx
      rcases List.mem_cons.mp hx with rfl | hx
      · exact hba
      · exact le_trans (hb x hx) hba
    · rename_i hba
      refine List.pairwise_cons.mpr ⟨?_, ih hrest⟩
      intro x hx
      rcases (mem_insertDescBy key a x rest).mp hx with rfl | hx
      · exact le_of_not_le hba
      · exact hb x hx

/-- Insertion sort yields a descending-key pairwise-ordered list. -/
theorem pairwise_sortDescBy {α : Type} (key : α → Int) (l : List α) :
    (sortDescBy key l).Pairwise (fun x y => key y ≤ key x) := by
  induction l with
  | nil => exact List.Pairwise.nil
  | cons a rest ih => exact pairwise_insertDescBy key a _ ih

/-- Ordered insert grows the list by one. -/
theorem length_insertDescBy {α : Type} (key : α → Int) (a : α) (l : List α) :
    (insertDescBy key a l).length = l.length + 1 := by
  induction l with
  | nil => rfl
  | cons b rest ih =>
    simp only [insertDescBy]
    split
    · rfl
    · simp [ih]

/-- Sorting does not change the length. -/
theorem length_sortDescBy {α : Type} (key : α → Int) (l : List α) :
    (sortDescBy key l).length = l.length := by
  induction l with
  | nil => rfl
  | cons a rest ih => simp [sortDescBy, length_insertDescBy, ih]

/-- C7: a list request against a healthy store answers 200 with the rows of
ORDER BY id DESC LIMIT 100 — never more than 100 entities, identifiers in
descending order — and an empty table yields an empty sequence with success
status, not an error. -/
theorem C7_list_bounded_desc (tbl : List User) (otbl : List Order) :
    listUsers (.ok ((runListUsers tbl).map .ok)) =
      { resp := { explicit := none, body := .usersJson (runListUsers tbl) }
        stmts := [.selectUsers], dbObserves := 1 } ∧
    (runListUsers tbl).length ≤ 100 ∧
    (runListUsers tbl).Pairwise (fun a b => b.id ≤ a.id) ∧
    runListUsers ([] : List User) = [] ∧
    listUsers (.ok []) =
      { resp := { explicit := none, body := .usersJson [] }
        stmts := [.selectUsers], dbObserves := 1 } ∧
    (listUsers (.ok [])).resp.status = 200 ∧
    listOrders (.ok ((runListOrders otbl).map .ok)) =
      { resp := { explicit := none, body := .ordersJson (runListOrders otbl) }
        stmts := [.selectOrders], dbObserves := 1 } ∧
    (runListOrders otbl).length ≤ 100 ∧
    (runListOrders otbl).Pairwise (fun a b => b.id ≤ a.id) ∧
    runListOrders ([] : List Order) = [] ∧
    listOrders (.ok []) =
      { resp := { explicit := none, body := .ordersJson [] }
        stmts := [.selectOrders], dbObserves := 1 } := by
  refine ⟨?_, ?_, ?_, rfl, rfl, rfl, ?_, ?_, ?_, rfl, rfl⟩
  · simp [listUsers, scanUsers_ok]
  · simp only [runListUsers, List.length_take]
    exact min_le_left _ _
  · exact List.Pairwise.sublist (List.take_sublist 100 _)
      (pairwise_sortDescBy (fun u => u.id) tbl)
  · simp [listOrders, scanOrders_ok]
  · simp only [runListOrders, List.length_take]
    exact min_le_left _ _
  · exact List.Pairwise.sublist (List.take_sublist 100 _)
      (pairwise_sortDescBy (fun o => o.id) otbl)

/-- Incrementing one label raises the all-bucket total by exactly one. -/
theorem totalCount_bump (st : CounterState) (l : Label) :
    totalCount (bump st l) = totalCount st + 1 := by
  induction st with
  | nil => rfl
  | cons hd rest ih =>
    obtain ⟨l0, n⟩ := hd
    simp only [bump]
    split
    · simp only [totalCount]
      omega
    · simp only [totalCount, ih]
      omega

/-- Serving N requests through the instrumented handler makes the request
counter total exactly N across all label buckets. -/
theorem totalCount_processAll (h : Request → Resp) (reqs : List Request) :
    totalCount (processAll h reqs) = reqs.length := by
  suffices H : ∀ st : CounterState,
      totalCount (reqs.foldl (fun st r => ((instrumentHandler h r).2).foldl applyEvent st) st) =
        totalCount st + reqs.length by
    simpa [processAll, totalCount] using H []
  induction reqs with
  | nil => intro st; simp
  | cons r rest ih =>
    intro st
    have hone : ((instrumentHandler h r).2).foldl applyEvent st =
        bump st (r.method, r.urlPath, toString (statusRecorderFinal 200 (h r))) := rfl
    simp only [List.foldl_cons, hone, ih, totalCount_bump, List.length_cons]
    omega

/-- C1 (amended): for every request the middleware, after the wrapped handler
completes — success or error — emits exactly one latency observation and
exactly one counter increment, both keyed by (request method, raw request URL
path, final status code), without altering the response; N requests drive the
request-count total to exactly N summed across all status buckets. -/
theorem C1_one_observation_per_request (h : Request → Resp) (req : Request)
    (reqs : List Request) :
    (instrumentHandler h req).2 =
      [MetricEvent.observeReq req.method req.urlPath (toString ((h req).explicit.getD 200)),
       MetricEvent.incReq req.method req.urlPath (toString ((h req).explicit.getD 200))] ∧
    ((instrumentHandler h req).2.countP (fun ev => ev.isObserve)) = 1 ∧
    ((instrumentHandler h req).2.countP (fun ev => ev.isInc)) = 1 ∧
    (instrumentHandler h req).1 = h req ∧
    totalCount (processAll h reqs) = reqs.length := by
  refine ⟨rfl, ?_, ?_, rfl, totalCount_processAll h reqs⟩
  · simp [instrumentHandler, MetricEvent.isObserve, List.countP_cons]
  · simp [instrumentHandler, MetricEvent.isInc, List.countP_cons]

/-- C1 counterexample: the labels use the raw URL path, not the mux path
template — a GET of /api/users/123 matches the registered route
/api/users/\x7bid\x7d, yet both emitted metric events carry the path label
"/api/users/123", which differs from the template. -/
theorem C1_counterexample :
    routeTemplate "/api/users/123" = some "/api/users/\x7bid\x7d" ∧
    (instrumentHandler (fun _ => { explicit := none, body := .empty })
        { method := "GET", urlPath := "/api/users/123" }).2 =
      [.observeReq "GET" "/api/users/123" "200", .incReq "GET" "/api/users/123" "200"] ∧
    ("/api/users/123" : String) ≠ "/api/users/\x7bid\x7d" :=
  ⟨rfl, rfl, by decide⟩

end DemoApp
